import Mathlib

/-!
Shallow embedding of the user-management REST service
(`models/user.go`, `services/user_service.go`, `handlers/user_handler.go`).

The Mongo collection is modelled as an insertion-ordered list of documents
together with a driver-fault schedule: each driver call (FindOne, InsertOne,
UpdateOne) consumes the head of the schedule and fails when it is `true`;
an exhausted (empty) schedule means the store is healthy.  `queryLog` counts
driver calls actually issued, so "no database call happened" is observable
as an unchanged state.  Time is passed in explicitly as `now`.
-/

namespace UserApp

/-- The persisted `User` entity (`models/user.go`).  `id` models the
12-byte ObjectID as the natural number its bytes denote; `password`
holds the bcrypt hash (bson field "password", excluded from JSON). -/
structure User where
  id : Nat
  userID : String
  email : String
  password : String
  createdAt : Nat
  updatedAt : Nat
deriving Repr, DecidableEq

/-- `models.CreateUserRequest`: all three fields mandatory. -/
structure CreateUserRequest where
  userID : String
  email : String
  password : String
deriving Repr, DecidableEq

/-- `models.UpdateUserRequest`: all three fields independently optional. -/
structure UpdateUserRequest where
  userID : Option String
  email : Option String
  password : Option String
deriving Repr, DecidableEq

/-- Hexadecimal digit test used by ObjectID parsing. -/
def isHexDigitCh (c : Char) : Bool :=
  c.isDigit || ('a' ≤ c && c ≤ 'f') || ('A' ≤ c && c ≤ 'F')

/-- Value of one hexadecimal digit. -/
def hexVal (c : Char) : Nat :=
  if c.isDigit then c.toNat - '0'.toNat
  else if 'a' ≤ c && c ≤ 'f' then c.toNat - 'a'.toNat + 10
  else c.toNat - 'A'.toNat + 10

/-- `bson.ObjectIDFromHex`: succeeds exactly on 24-character hex strings,
returning the decoded 12-byte value (case-insensitive, as in the driver). -/
def objectIDFromHex (s : String) : Option Nat :=
  if s.length == 24 && s.toList.all isHexDigitCh then
    some (s.toList.foldl (fun a c => a * 16 + hexVal c) 0)
  else none

/-- The three point-lookup filters the service builds
(`bson.M with _id / user_id / email`). -/
inductive MFilter
  | byId (oid : Nat)
  | byUserID (v : String)
  | byEmail (v : String)
deriving Repr, DecidableEq

/-- Whether a stored document matches a filter. -/
def matchesFilter : MFilter → User → Bool
  | .byId oid, u => u.id == oid
  | .byUserID v, u => u.userID == v
  | .byEmail v, u => u.email == v

/-- Collection state: documents in insertion order, the next ObjectID the
driver will assign, the driver-fault schedule, and a count of driver calls. -/
structure DBState where
  docs : List User
  nextOID : Nat
  faults : List Bool
  queryLog : Nat
deriving Repr, DecidableEq

/-- Consume one entry of the fault schedule (empty schedule: no fault). -/
def takeFault (s : DBState) : Bool × DBState :=
  match s.faults with
  | [] => (false, { s with queryLog := s.queryLog + 1 })
  | b :: rest => (b, { s with faults := rest, queryLog := s.queryLog + 1 })

/-- Driver `FindOne`: first matching document in natural order;
`.ok none` models `mongo.ErrNoDocuments`, `.error ()` a driver failure. -/
def findOne (s : DBState) (f : MFilter) : Except Unit (Option User) × DBState :=
  match takeFault s with
  | (true, s1) => (.error (), s1)
  | (false, s1) => (.ok (s1.docs.find? (matchesFilter f)), s1)

/-- Driver `InsertOne`: appends the document with a fresh ObjectID and
returns that id (`result.InsertedID`). -/
def insertOne (s : DBState) (u : User) : Except Unit Nat × DBState :=
  match takeFault s with
  | (true, s1) => (.error (), s1)
  | (false, s1) =>
    (.ok s1.nextOID,
     { s1 with docs := s1.docs ++ [{ u with id := s1.nextOID }],
               nextOID := s1.nextOID + 1 })

/-- Replace the first element satisfying `p` by its image under `f`. -/
def setFirst (p : User → Bool) (f : User → User) : List User → List User
  | [] => []
  | u :: rest => if p u then f u :: rest else u :: setFirst p f rest

/-- The `$set` document `UpdateUser` accumulates: optional new values for
the three fields plus the always-present refreshed `updated_at`. -/
structure UpdateFields where
  userID : Option String
  email : Option String
  password : Option String
  updatedAt : Nat
deriving Repr, DecidableEq

/-- Apply a `$set` document to one stored document. -/
def applySet (uf : UpdateFields) (u : User) : User :=
  { u with
    userID := uf.userID.getD u.userID
    email := uf.email.getD u.email
    password := uf.password.getD u.password
    updatedAt := uf.updatedAt }

/-- Driver `UpdateOne` with an `_id` filter: `$set` on the first matching
document; matching nothing is not an error. -/
def updateOne (s : DBState) (oid : Nat) (uf : UpdateFields) :
    Except Unit Unit × DBState :=
  match takeFault s with
  | (true, s1) => (.error (), s1)
  | (false, s1) =>
    (.ok (), { s1 with docs := setFirst (fun d => d.id == oid) (applySet uf) s1.docs })

/-- Model of the external bcrypt primitive (`golang.org/x/crypto/bcrypt`),
which is out of scope for this repository: the hash is the plaintext behind
a salt header, so hashing is deterministic, the hash never equals the
plaintext, and verification is comparison against re-hashing. -/
def bcryptHash (password : String) : String :=
  "$2a$10$" ++ password

/-- `bcrypt.GenerateFromPassword`: fails when the password exceeds the
algorithm's 72-byte input limit. -/
def generateFromPassword (password : String) : Except String String :=
  if 72 < password.utf8ByteSize then .error "password length exceeds 72 bytes"
  else .ok (bcryptHash password)

/-- `User.HashPassword`: stores the bcrypt hash on the entity. -/
def User.hashPassword (u : User) (password : String) : Except String User :=
  match generateFromPassword password with
  | .error e => .error e
  | .ok h => .ok { u with password := h }

/-- `User.CheckPassword`: true exactly when the stored hash verifies the
candidate plaintext. -/
def User.checkPassword (u : User) (password : String) : Bool :=
  u.password == bcryptHash password

/-- The error values `UserService` produces, one per `errors.New` /
`fmt.Errorf` site. -/
inductive SvcErr
  | invalidUserID
  | userNotFound
  | userIDExists
  | emailExists
  | failedToHash
  | failedToCreate
  | failedToGet
  | failedToUpdate
deriving Repr, DecidableEq

/-- `err.Error()` for each service error (wrapped driver detail elided;
the handlers only ever compare against the exact string "user not found"). -/
def svcMessage : SvcErr → String
  | .invalidUserID => "invalid user ID: the provided hex string is not a valid ObjectID"
  | .userNotFound => "user not found"
  | .userIDExists => "user with this user_id already exists"
  | .emailExists => "user with this email already exists"
  | .failedToHash => "failed to hash password: bcrypt error"
  | .failedToCreate => "failed to create user: driver error"
  | .failedToGet => "failed to get user: driver error"
  | .failedToUpdate => "failed to update user: driver error"

/-- `UserService.GetUserByID`: parse the hex id, then point lookup;
absent document is the error "user not found". -/
def getUserByID (s : DBState) (id : String) : Except SvcErr User × DBState :=
  match objectIDFromHex id with
  | none => (.error .invalidUserID, s)
  | some oid =>
    match findOne s (.byId oid) with
    | (.error _, s1) => (.error .failedToGet, s1)
    | (.ok none, s1) => (.error .userNotFound, s1)
    | (.ok (some u), s1) => (.ok u, s1)

/-- `UserService.GetUserByUserID`: absent document is `.ok none`
(`nil, nil` in the source), not an error. -/
def getUserByUserID (s : DBState) (uid : String) :
    Except SvcErr (Option User) × DBState :=
  match findOne s (.byUserID uid) with
  | (.error _, s1) => (.error .failedToGet, s1)
  | (.ok r, s1) => (.ok r, s1)

/-- `UserService.GetUserByEmail`: absent document is `.ok none`. -/
def getUserByEmail (s : DBState) (em : String) :
    Except SvcErr (Option User) × DBState :=
  match findOne s (.byEmail em) with
  | (.error _, s1) => (.error .failedToGet, s1)
  | (.ok r, s1) => (.ok r, s1)

/-- The `existingUser, _ := ...` pattern: the lookup's error is discarded
and a failed lookup leaves `existingUser` nil. -/
def discardErr : Except SvcErr (Option User) → Option User
  | .error _ => none
  | .ok r => r

/-- `UserService.CreateUser`: uniqueness pre-checks on `user_id` then
`email` (lookup errors discarded), hash, insert, return with assigned id. -/
def createUser (s : DBState) (now : Nat) (req : CreateUserRequest) :
    Except SvcErr User × DBState :=
  match getUserByUserID s req.userID with
  | (r1, s1) =>
    match discardErr r1 with
    | some _ => (.error .userIDExists, s1)
    | none =>
      match getUserByEmail s1 req.email with
      | (r2, s2) =>
        match discardErr r2 with
        | some _ => (.error .emailExists, s2)
        | none =>
          let user : User :=
            { id := 0, userID := req.userID, email := req.email,
              password := "", createdAt := now, updatedAt := now }
          match user.hashPassword req.password with
          | .error _ => (.error .failedToHash, s2)
          | .ok hashed =>
            match insertOne s2 hashed with
            | (.error _, s3) => (.error .failedToCreate, s3)
            | (.ok oid, s3) => (.ok { hashed with id := oid }, s3)

/-- The `user_id` uniqueness block of `UpdateUser`: collision with a
*different* record is a conflict; the lookup's error is discarded. -/
def checkUID (s : DBState) (oid : Nat) : Option String → Except SvcErr Unit × DBState
  | none => (.ok (), s)
  | some v =>
    match getUserByUserID s v with
    | (r, s1) =>
      match discardErr r with
      | some ex => if ex.id == oid then (.ok (), s1) else (.error .userIDExists, s1)
      | none => (.ok (), s1)

/-- The `email` uniqueness block of `UpdateUser`. -/
def checkEmail (s : DBState) (oid : Nat) : Option String → Except SvcErr Unit × DBState
  | none => (.ok (), s)
  | some v =>
    match getUserByEmail s v with
    | (r, s1) =>
      match discardErr r with
      | some ex => if ex.id == oid then (.ok (), s1) else (.error .emailExists, s1)
      | none => (.ok (), s1)

/-- The password block of `UpdateUser`: hash when present. -/
def hashOpt : Option String → Except SvcErr (Option String)
  | none => .ok none
  | some p =>
    match generateFromPassword p with
    | .error _ => .error .failedToHash
    | .ok h => .ok (some h)

/-- `UserService.UpdateUser`: parse the id, run the two uniqueness blocks,
hash an updated password, apply one `$set` write, then re-fetch by id. -/
def updateUser (s : DBState) (now : Nat) (id : String) (req : UpdateUserRequest) :
    Except SvcErr User × DBState :=
  match objectIDFromHex id with
  | none => (.error .invalidUserID, s)
  | some oid =>
    match checkUID s oid req.userID with
    | (.error e, s1) => (.error e, s1)
    | (.ok _, s1) =>
      match checkEmail s1 oid req.email with
      | (.error e, s2) => (.error e, s2)
      | (.ok _, s2) =>
        match hashOpt req.password with
        | .error e => (.error e, s2)
        | .ok hpw =>
          match updateOne s2 oid ⟨req.userID, req.email, hpw, now⟩ with
          | (.error _, s3) => (.error .failedToUpdate, s3)
          | (.ok _, s3) => getUserByID s3 id

/-- A JSON scalar in a response body. -/
inductive JVal
  | str (v : String)
  | nat (v : Nat)
deriving Repr, DecidableEq

/-- JSON marshalling of a `User` per the struct tags of `models/user.go`:
`id`, `user_id`, `email`, `created_at`, `updated_at`; the `Password` field
carries the tag `json:"-"` and is therefore never emitted. -/
def userJSONFields (u : User) : List (String × JVal) :=
  [("id", .nat u.id), ("user_id", .str u.userID), ("email", .str u.email),
   ("created_at", .nat u.createdAt), ("updated_at", .nat u.updatedAt)]

/-- An HTTP response body: an `error` object, a serialized user,
or a message object. -/
inductive Body
  | jsonError (msg : String)
  | jsonUser (fields : List (String × JVal))
  | jsonMessage (msg : String)
deriving Repr, DecidableEq

/-- An HTTP response: status code plus JSON body. -/
structure HttpResp where
  status : Nat
  body : Body
deriving Repr, DecidableEq

/-- The keys a response body exposes. -/
def bodyKeys : Body → List String
  | .jsonUser fs => fs.map Prod.fst
  | .jsonError _ => ["error"]
  | .jsonMessage _ => ["message"]

/-- `UserHandler.CreateUser` (bind assumed successful): required-field
check, then the service call; every service error becomes 409. -/
def createUserHandler (s : DBState) (now : Nat) (req : CreateUserRequest) :
    HttpResp × DBState :=
  if req.userID == "" || req.email == "" || req.password == "" then
    (⟨400, .jsonError "user_id, email, and password are required"⟩, s)
  else
    match createUser s now req with
    | (.error e, s1) => (⟨409, .jsonError (svcMessage e)⟩, s1)
    | (.ok u, s1) => (⟨201, .jsonUser (userJSONFields u)⟩, s1)

/-- `UserHandler.GetUser`: empty id 400; the error whose message is
exactly "user not found" becomes 404; any other error becomes 500. -/
def getUserHandler (s : DBState) (id : String) : HttpResp × DBState :=
  if id == "" then (⟨400, .jsonError "User ID is required"⟩, s)
  else
    match getUserByID s id with
    | (.error e, s1) =>
      if svcMessage e == "user not found" then
        (⟨404, .jsonError "User not found"⟩, s1)
      else (⟨500, .jsonError (svcMessage e)⟩, s1)
    | (.ok u, s1) => (⟨200, .jsonUser (userJSONFields u)⟩, s1)

/-- `UserHandler.GetUserByUserID`: missing parameter 400; service error
500; null result 404; found 200. -/
def getUserByUserIDHandler (s : DBState) (uid : String) : HttpResp × DBState :=
  if uid == "" then
    (⟨400, .jsonError "user_id query parameter is required"⟩, s)
  else
    match getUserByUserID s uid with
    | (.error e, s1) => (⟨500, .jsonError (svcMessage e)⟩, s1)
    | (.ok none, s1) => (⟨404, .jsonError "User not found"⟩, s1)
    | (.ok (some u), s1) => (⟨200, .jsonUser (userJSONFields u)⟩, s1)

/-- `UserHandler.GetUserByEmail`: same shape as the natural-key search. -/
def getUserByEmailHandler (s : DBState) (em : String) : HttpResp × DBState :=
  if em == "" then
    (⟨400, .jsonError "email query parameter is required"⟩, s)
  else
    match getUserByEmail s em with
    | (.error e, s1) => (⟨500, .jsonError (svcMessage e)⟩, s1)
    | (.ok none, s1) => (⟨404, .jsonError "User not found"⟩, s1)
    | (.ok (some u), s1) => (⟨200, .jsonUser (userJSONFields u)⟩, s1)

/-- `UserHandler.UpdateUser` (bind assumed successful): empty id 400;
the "user not found" message becomes 404; every other error becomes 409. -/
def updateUserHandler (s : DBState) (now : Nat) (id : String)
    (req : UpdateUserRequest) : HttpResp × DBState :=
  if id == "" then (⟨400, .jsonError "User ID is required"⟩, s)
  else
    match updateUser s now id req with
    | (.error e, s1) =>
      if svcMessage e == "user not found" then
        (⟨404, .jsonError "User not found"⟩, s1)
      else (⟨409, .jsonError (svcMessage e)⟩, s1)
    | (.ok u, s1) => (⟨200, .jsonUser (userJSONFields u)⟩, s1)

/-- Pointwise form of the `_id` filter. -/
theorem matchesFilter_byId (oid : Nat) :
    matchesFilter (.byId oid) = fun u => u.id == oid := rfl

/-- Pointwise form of the `user_id` filter. -/
theorem matchesFilter_byUserID (v : String) :
    matchesFilter (.byUserID v) = fun u => u.userID == v := rfl

/-- Pointwise form of the `email` filter. -/
theorem matchesFilter_byEmail (v : String) :
    matchesFilter (.byEmail v) = fun u => u.email == v := rfl

/-- Only the `userNotFound` error renders as the exact string the handlers
compare against. -/
theorem svcMessage_eq_user_not_found (e : SvcErr) :
    svcMessage e = "user not found" ↔ e = SvcErr.userNotFound := by
  cases e <;> simp [svcMessage]

/-- C1: The spec says a Create/Update gateway failure that is not a
validation, not-found, or duplicate-key outcome yields HTTP 500, with 409
reserved for duplicate keys.  The code has no 500 branch in these two
handlers: every Create error (here a failed insert) is answered with 409.
This closed run refutes the claim at a concrete input. -/
theorem create_insert_fault_gets_409_not_500 :
    (createUserHandler ⟨[], 7, [false, false, true], 0⟩ 5
      ⟨"alice", "a@x.com", "pw"⟩).1 =
      ⟨409, Body.jsonError (svcMessage .failedToCreate)⟩ ∧
    ¬ (createUserHandler ⟨[], 7, [false, false, true], 0⟩ 5
      ⟨"alice", "a@x.com", "pw"⟩).1.status = 500 := by
  constructor
  · decide
  · decide

/-- C1 (amended): with well-formed input, every CreateUser gateway error is
answered 409 with the underlying message in the `error` field, and every
UpdateUser gateway error is answered 404 when its message is exactly
"user not found" and 409 (again surfacing the message) otherwise; neither
handler ever produces a 500 for a gateway error. -/
theorem create_update_errors_map_to_409
    (s : DBState) (now : Nat) (req : CreateUserRequest) (id : String)
    (ureq : UpdateUserRequest) (e e' : SvcErr)
    (h1 : req.userID ≠ "") (h2 : req.email ≠ "") (h3 : req.password ≠ "")
    (hc : (createUser s now req).1 = .error e)
    (hid : id ≠ "")
    (hu : (updateUser s now id ureq).1 = .error e') :
    (createUserHandler s now req).1 = ⟨409, Body.jsonError (svcMessage e)⟩ ∧
    (e' = .userNotFound →
      (updateUserHandler s now id ureq).1 = ⟨404, Body.jsonError "User not found"⟩) ∧
    (e' ≠ .userNotFound →
      (updateUserHandler s now id ureq).1 = ⟨409, Body.jsonError (svcMessage e')⟩) := by
  have hb1 : (req.userID == "") = false := beq_eq_false_iff_ne.mpr h1
  have hb2 : (req.email == "") = false := beq_eq_false_iff_ne.mpr h2
  have hb3 : (req.password == "") = false := beq_eq_false_iff_ne.mpr h3
  have hbid : (id == "") = false := beq_eq_false_iff_ne.mpr hid
  refine ⟨?_, ?_, ?_⟩
  · cases hcr : createUser s now req with
    | mk r s1 =>
      rw [hcr] at hc
      simp only at hc
      subst hc
      simp [createUserHandler, hb1, hb2, hb3, hcr]
  · intro he'
    subst he'
    cases hur : updateUser s now id ureq with
    | mk r s1 =>
      rw [hur] at hu
      simp only at hu
      subst hu
      simp [updateUserHandler, hbid, hur, svcMessage]
  · intro he'
    have hne : (svcMessage e' == "user not found") = false :=
      beq_eq_false_iff_ne.mpr (fun h => he' ((svcMessage_eq_user_not_found e').mp h))
    cases hur : updateUser s now id ureq with
    | mk r s1 =>
      rw [hur] at hu
      simp only at hu
      subst hu
      simp [updateUserHandler, hbid, hur, hne]

/-- C1 witness: a concrete store whose insert call faults; Create answers
409 and an Update on an absent id answers 404. -/
theorem create_update_errors_map_to_409_witness :
    (createUser ⟨[], 7, [false, false, true], 0⟩ 5
      ⟨"alice", "a@x.com", "pw"⟩).1 = .error .failedToCreate ∧
    (updateUser ⟨[], 7, [false, false, true], 0⟩ 5
      "000000000000000000000001" ⟨none, none, none⟩).1 = .error .userNotFound ∧
    (createUserHandler ⟨[], 7, [false, false, true], 0⟩ 5
      ⟨"alice", "a@x.com", "pw"⟩).1 =
      ⟨409, Body.jsonError (svcMessage .failedToCreate)⟩ ∧
    (updateUserHandler ⟨[], 7, [false, false, true], 0⟩ 5
      "000000000000000000000001" ⟨none, none, none⟩).1 =
      ⟨404, Body.jsonError "User not found"⟩ := by
  refine ⟨rfl, rfl, ?_, ?_⟩
  · exact (create_update_errors_map_to_409 ⟨[], 7, [false, false, true], 0⟩ 5
      ⟨"alice", "a@x.com", "pw"⟩ "000000000000000000000001" ⟨none, none, none⟩
      .failedToCreate .userNotFound (by decide) (by decide) (by decide)
      rfl (by decide) rfl).1
  · exact (create_update_errors_map_to_409 ⟨[], 7, [false, false, true], 0⟩ 5
      ⟨"alice", "a@x.com", "pw"⟩ "000000000000000000000001" ⟨none, none, none⟩
      .failedToCreate .userNotFound (by decide) (by decide) (by decide)
      rfl (by decide) rfl).2.1 rfl

/-- C2: The spec's table promises 400 for a GET /users/{id} whose id is not
a well-formed ObjectID hex string.  The code returns 400 only for an empty
id; a non-empty malformed id flows into the service, whose invalid-id error
message is not "user not found", so the handler answers 500.  Closed run at
the malformed id "xyz". -/
theorem getUser_malformed_id_gets_500_not_400 :
    objectIDFromHex "xyz" = none ∧
    (getUserHandler ⟨[], 0, [], 0⟩ "xyz").1.status = 500 ∧
    ¬ (getUserHandler ⟨[], 0, [], 0⟩ "xyz").1.status = 400 := by
  refine ⟨by decide, by decide, by decide⟩

/-- C2 (amended): GET /users/{id} answers 400 exactly when the id path
parameter is empty; a non-empty id that is not a well-formed ObjectID hex
encoding is answered 500 with the invalid-id message in the `error` field. -/
theorem getUser_bad_id_statuses (s : DBState) (id : String) :
    (id = "" →
      (getUserHandler s id).1 = ⟨400, Body.jsonError "User ID is required"⟩) ∧
    (id ≠ "" → objectIDFromHex id = none →
      (getUserHandler s id).1 =
        ⟨500, Body.jsonError (svcMessage .invalidUserID)⟩) := by
  constructor
  · intro h
    subst h
    simp [getUserHandler]
  · intro hne hnone
    have hbid : (id == "") = false := beq_eq_false_iff_ne.mpr hne
    simp [getUserHandler, hbid, getUserByID, hnone, svcMessage]

/-- C2 witness: the two branches evaluated at "" and at the malformed "zz". -/
theorem getUser_bad_id_statuses_witness :
    (getUserHandler ⟨[], 0, [], 0⟩ "").1 =
      ⟨400, Body.jsonError "User ID is required"⟩ ∧
    ("zz" ≠ "" ∧ objectIDFromHex "zz" = none) ∧
    (getUserHandler ⟨[], 0, [], 0⟩ "zz").1 =
      ⟨500, Body.jsonError (svcMessage .invalidUserID)⟩ := by
  refine ⟨(getUser_bad_id_statuses ⟨[], 0, [], 0⟩ "").1 rfl,
    ⟨by decide, by decide⟩,
    (getUser_bad_id_statuses ⟨[], 0, [], 0⟩ "zz").2 (by decide) (by decide)⟩

/-- C3: GetByID on a malformed identifier fails with the invalid-argument
error and leaves the store state untouched (no driver call is issued, the
call counter included); on a well-formed identifier with no matching
document (healthy store) it fails with the not-found error. -/
theorem getUserByID_validation_and_notfound (s : DBState) (id : String)
    (oid : Nat) (h1 : s.faults = []) :
    (objectIDFromHex id = none →
      getUserByID s id = (.error .invalidUserID, s)) ∧
    (objectIDFromHex id = some oid →
      s.docs.find? (fun d => d.id == oid) = none →
      (getUserByID s id).1 = .error .userNotFound) := by
  constructor
  · intro hnone
    simp [getUserByID, hnone]
  · intro hsome hfind
    simp [getUserByID, hsome, findOne, takeFault, h1, matchesFilter_byId, hfind]

/-- C3 witness: a one-document healthy store, probed with the malformed id
"nope" and with a well-formed absent id. -/
theorem getUserByID_validation_and_notfound_witness :
    (objectIDFromHex "nope" = none ∧
      getUserByID ⟨[⟨5, "a", "a@x.com", "h", 0, 0⟩], 6, [], 0⟩ "nope" =
        (.error .invalidUserID, ⟨[⟨5, "a", "a@x.com", "h", 0, 0⟩], 6, [], 0⟩)) ∧
    (objectIDFromHex "000000000000000000000007" = some 7 ∧
      (getUserByID ⟨[⟨5, "a", "a@x.com", "h", 0, 0⟩], 6, [], 0⟩
        "000000000000000000000007").1 = .error .userNotFound) := by
  refine ⟨⟨by decide, ?_⟩, ⟨by decide, ?_⟩⟩
  · exact (getUserByID_validation_and_notfound
      ⟨[⟨5, "a", "a@x.com", "h", 0, 0⟩], 6, [], 0⟩ "nope" 0 rfl).1 (by decide)
  · exact (getUserByID_validation_and_notfound
      ⟨[⟨5, "a", "a@x.com", "h", 0, 0⟩], 6, [], 0⟩ "000000000000000000000007" 7
      rfl).2 (by decide) (by decide)

/-- C9: the JSON serialization of a User exposes exactly the five fields
`id`, `user_id`, `email`, `created_at`, `updated_at` — no password or
password-hash key exists in any outbound body any handler produces. -/
theorem userJSON_never_contains_password (u : User) (s : DBState) (now : Nat)
    (req : CreateUserRequest) (id uid em : String) (ureq : UpdateUserRequest) :
    (userJSONFields u).map Prod.fst =
      ["id", "user_id", "email", "created_at", "updated_at"] ∧
    "password" ∉ (userJSONFields u).map Prod.fst ∧
    "password_hash" ∉ (userJSONFields u).map Prod.fst ∧
    "password" ∉ bodyKeys (createUserHandler s now req).1.body ∧
    "password" ∉ bodyKeys (getUserHandler s id).1.body ∧
    "password" ∉ bodyKeys (getUserByUserIDHandler s uid).1.body ∧
    "password" ∉ bodyKeys (getUserByEmailHandler s em).1.body ∧
    "password" ∉ bodyKeys (updateUserHandler s now id ureq).1.body := by
  refine ⟨by simp [userJSONFields], by simp [userJSONFields],
    by simp [userJSONFields], ?_, ?_, ?_, ?_, ?_⟩
  · unfold createUserHandler
    split
    · simp [bodyKeys]
    · split <;> simp [bodyKeys, userJSONFields]
  · unfold getUserHandler
    split
    · simp [bodyKeys]
    · split
      · split <;> simp [bodyKeys]
      · simp [bodyKeys, userJSONFields]
  · unfold getUserByUserIDHandler
    split
    · simp [bodyKeys]
    · split <;> simp [bodyKeys, userJSONFields]
  · unfold getUserByEmailHandler
    split
    · simp [bodyKeys]
    · split <;> simp [bodyKeys, userJSONFields]
  · unfold updateUserHandler
    split
    · simp [bodyKeys]
    · split
      · split <;> simp [bodyKeys]
      · simp [bodyKeys, userJSONFields]

/-- C4: against a healthy store, Create rejects a taken `user_id` first —
with the user_id conflict and no insert, whatever the email situation —
and rejects a fresh `user_id` with a taken `email` with the email
conflict and no insert. -/
theorem createUser_conflict_order (s : DBState) (now : Nat)
    (req : CreateUserRequest) (h1 : s.faults = []) :
    (∀ w, s.docs.find? (fun d => d.userID == req.userID) = some w →
      (createUser s now req).1 = .error .userIDExists ∧
      (createUser s now req).2.docs = s.docs) ∧
    (s.docs.find? (fun d => d.userID == req.userID) = none →
      ∀ w, s.docs.find? (fun d => d.email == req.email) = some w →
        (createUser s now req).1 = .error .emailExists ∧
        (createUser s now req).2.docs = s.docs) := by
  constructor
  · intro w hw
    simp [createUser, getUserByUserID, findOne, takeFault, h1,
      matchesFilter_byUserID, hw, discardErr]
  · intro hno w hw
    simp [createUser, getUserByUserID, getUserByEmail, findOne, takeFault, h1,
      matchesFilter_byUserID, matchesFilter_byEmail, hno, hw, discardErr]

/-- C4 witness: a store holding alice; creating with her user_id conflicts
on user_id even though the email is also hers, and creating with a fresh
user_id but her email conflicts on email; the store is unchanged. -/
theorem createUser_conflict_order_witness :
    (createUser ⟨[⟨1, "alice", "a@x.com", "h", 0, 0⟩], 2, [], 0⟩ 9
      ⟨"alice", "a@x.com", "pw"⟩).1 = .error .userIDExists ∧
    (createUser ⟨[⟨1, "alice", "a@x.com", "h", 0, 0⟩], 2, [], 0⟩ 9
      ⟨"alice", "a@x.com", "pw"⟩).2.docs = [⟨1, "alice", "a@x.com", "h", 0, 0⟩] ∧
    (createUser ⟨[⟨1, "alice", "a@x.com", "h", 0, 0⟩], 2, [], 0⟩ 9
      ⟨"bob", "a@x.com", "pw"⟩).1 = .error .emailExists ∧
    (createUser ⟨[⟨1, "alice", "a@x.com", "h", 0, 0⟩], 2, [], 0⟩ 9
      ⟨"bob", "a@x.com", "pw"⟩).2.docs = [⟨1, "alice", "a@x.com", "h", 0, 0⟩] := by
  refine ⟨?_, ?_, ?_, ?_⟩
  · exact ((createUser_conflict_order ⟨[⟨1, "alice", "a@x.com", "h", 0, 0⟩], 2, [], 0⟩
      9 ⟨"alice", "a@x.com", "pw"⟩ rfl).1 ⟨1, "alice", "a@x.com", "h", 0, 0⟩ rfl).1
  · exact ((createUser_conflict_order ⟨[⟨1, "alice", "a@x.com", "h", 0, 0⟩], 2, [], 0⟩
      9 ⟨"alice", "a@x.com", "pw"⟩ rfl).1 ⟨1, "alice", "a@x.com", "h", 0, 0⟩ rfl).2
  · exact ((createUser_conflict_order ⟨[⟨1, "alice", "a@x.com", "h", 0, 0⟩], 2, [], 0⟩
      9 ⟨"bob", "a@x.com", "pw"⟩ rfl).2 (by decide) ⟨1, "alice", "a@x.com", "h", 0, 0⟩ rfl).1
  · exact ((createUser_conflict_order ⟨[⟨1, "alice", "a@x.com", "h", 0, 0⟩], 2, [], 0⟩
      9 ⟨"bob", "a@x.com", "pw"⟩ rfl).2 (by decide) ⟨1, "alice", "a@x.com", "h", 0, 0⟩ rfl).2

/-- C5: against a healthy store, Create on a fresh user_id and email
succeeds; the returned entity carries the request's user_id and email, a
stored hash different from the plaintext, a hash that verifies the original
plaintext, and creation timestamps set to now. -/
theorem createUser_success (s : DBState) (now : Nat) (req : CreateUserRequest)
    (h1 : s.faults = [])
    (hu : s.docs.find? (fun d => d.userID == req.userID) = none)
    (he : s.docs.find? (fun d => d.email == req.email) = none)
    (hp : req.password.utf8ByteSize ≤ 72) :
    ∃ u, (createUser s now req).1 = .ok u ∧
      u.userID = req.userID ∧ u.email = req.email ∧
      u.password ≠ req.password ∧ u.checkPassword req.password = true ∧
      u.createdAt = now ∧ u.updatedAt = now := by
  refine ⟨⟨s.nextOID, req.userID, req.email, bcryptHash req.password, now, now⟩,
    ?_, rfl, rfl, ?_, ?_, rfl, rfl⟩
  · simp [createUser, getUserByUserID, getUserByEmail, findOne, takeFault, h1,
      matchesFilter_byUserID, matchesFilter_byEmail, hu, he, discardErr,
      User.hashPassword, generateFromPassword, Nat.not_lt.mpr hp, insertOne]
  · intro hcontra
    have hl := congrArg String.length hcontra
    rw [bcryptHash, String.length_append] at hl
    have h7 : ("$2a$10$" : String).length = 7 := by decide
    rw [h7] at hl
    omega
  · simp [User.checkPassword]

/-- C5 witness: creating bob in a store holding only alice. -/
theorem createUser_success_witness :
    ∃ u, (createUser ⟨[⟨1, "alice", "a@x.com", "h", 0, 0⟩], 2, [], 0⟩ 9
      ⟨"bob", "b@x.com", "secret"⟩).1 = .ok u ∧
      u.userID = "bob" ∧ u.email = "b@x.com" ∧
      u.password ≠ "secret" ∧ u.checkPassword "secret" = true ∧
      u.createdAt = 9 ∧ u.updatedAt = 9 :=
  createUser_success ⟨[⟨1, "alice", "a@x.com", "h", 0, 0⟩], 2, [], 0⟩ 9
    ⟨"bob", "b@x.com", "secret"⟩ rfl (by decide) (by decide) (by decide)

/-- C10: when the user_id pre-check lookup itself fails with a store error,
Create discards the error, treats the key as unused, and inserts anyway —
duplicating an existing user_id past the only uniqueness enforcement. -/
theorem createUser_precheck_fault_admits_duplicate (s : DBState) (now : Nat)
    (req : CreateUserRequest) (w : User)
    (h1 : s.faults = [true])
    (hw : s.docs.find? (fun d => d.userID == req.userID) = some w)
    (he : s.docs.find? (fun d => d.email == req.email) = none)
    (hp : req.password.utf8ByteSize ≤ 72) :
    (createUser s now req).1 =
      .ok ⟨s.nextOID, req.userID, req.email, bcryptHash req.password, now, now⟩ ∧
    2 ≤ ((createUser s now req).2.docs.filter
      (fun d => d.userID == req.userID)).length := by
  have hmem : w ∈ s.docs := List.mem_of_find?_eq_some hw
  have hpsat : (w.userID == req.userID) = true := by
    have hps := List.find?_some hw
    simpa using hps
  have hfil : w ∈ s.docs.filter (fun d => d.userID == req.userID) :=
    List.mem_filter.mpr ⟨hmem, hpsat⟩
  have hlen : 0 < (s.docs.filter (fun d => d.userID == req.userID)).length :=
    List.length_pos_of_mem hfil
  constructor
  · simp [createUser, getUserByUserID, getUserByEmail, findOne, takeFault, h1,
      matchesFilter_byEmail, he, discardErr, User.hashPassword,
      generateFromPassword, Nat.not_lt.mpr hp, insertOne]
  · have hred : (createUser s now req).2.docs =
        s.docs ++ [⟨s.nextOID, req.userID, req.email, bcryptHash req.password, now, now⟩] := by
      simp [createUser, getUserByUserID, getUserByEmail, findOne, takeFault, h1,
        matchesFilter_byEmail, he, discardErr, User.hashPassword,
        generateFromPassword, Nat.not_lt.mpr hp, insertOne]
    rw [hred, List.filter_append]
    simp only [List.filter, beq_self_eq_true, List.length_append, List.length_cons,
      List.length_nil]
    omega

/-- C10 witness: a store holding alice whose first lookup faults; a second
alice is admitted. -/
theorem createUser_precheck_fault_admits_duplicate_witness :
    (createUser ⟨[⟨1, "alice", "a@x.com", "h", 0, 0⟩], 2, [true], 0⟩ 9
      ⟨"alice", "b@x.com", "pw"⟩).1 =
      .ok ⟨2, "alice", "b@x.com", bcryptHash "pw", 9, 9⟩ ∧
    2 ≤ ((createUser ⟨[⟨1, "alice", "a@x.com", "h", 0, 0⟩], 2, [true], 0⟩ 9
      ⟨"alice", "b@x.com", "pw"⟩).2.docs.filter
      (fun d => d.userID == "alice")).length :=
  createUser_precheck_fault_admits_duplicate
    ⟨[⟨1, "alice", "a@x.com", "h", 0, 0⟩], 2, [true], 0⟩ 9
    ⟨"alice", "b@x.com", "pw"⟩ ⟨1, "alice", "a@x.com", "h", 0, 0⟩
    rfl rfl (by decide) (by decide)

/-- Updating the first `p`-match by a `p`-preserving function moves that
same element under `find?`. -/
theorem find?_setFirst (p : User → Bool) (f : User → User)
    (hpf : ∀ x, p x = true → p (f x) = true) :
    ∀ (l : List User) (u : User), l.find? p = some u →
      (setFirst p f l).find? p = some (f u) := by
  intro l
  induction l with
  | nil => intro u h; simp at h
  | cons a rest ih =>
    intro u h
    by_cases hpa : p a = true
    · rw [List.find?_cons_of_pos _ hpa, Option.some.injEq] at h
      subst h
      simp only [setFirst, if_pos hpa]
      exact List.find?_cons_of_pos _ (hpf a hpa)
    · rw [List.find?_cons_of_neg _ hpa] at h
      simp only [setFirst, if_neg hpa]
      rw [List.find?_cons_of_neg _ hpa]
      exact ih u h

/-- On a healthy store, the `user_id` uniqueness block of Update passes
whenever any record owning the requested value is the target itself. -/
theorem checkUID_ok (docs : List User) (noid q oid : Nat) (ruid : Option String)
    (hu : ∀ v w, ruid = some v →
      docs.find? (fun d => d.userID == v) = some w → w.id = oid) :
    ∃ q', checkUID ⟨docs, noid, [], q⟩ oid ruid = (.ok (), ⟨docs, noid, [], q'⟩) := by
  cases ruid with
  | none => exact ⟨q, rfl⟩
  | some v =>
    refine ⟨q + 1, ?_⟩
    cases hf : docs.find? (fun d => d.userID == v) with
    | none =>
      simp [checkUID, getUserByUserID, findOne, takeFault,
        matchesFilter_byUserID, hf, discardErr]
    | some w =>
      have hb : (w.id == oid) = true := beq_iff_eq.mpr (hu v w rfl hf)
      simp [checkUID, getUserByUserID, findOne, takeFault,
        matchesFilter_byUserID, hf, discardErr, hb]

/-- On a healthy store, the `email` uniqueness block of Update passes
whenever any record owning the requested value is the target itself. -/
theorem checkEmail_ok (docs : List User) (noid q oid : Nat) (rem : Option String)
    (he : ∀ v w, rem = some v →
      docs.find? (fun d => d.email == v) = some w → w.id = oid) :
    ∃ q', checkEmail ⟨docs, noid, [], q⟩ oid rem = (.ok (), ⟨docs, noid, [], q'⟩) := by
  cases rem with
  | none => exact ⟨q, rfl⟩
  | some v =>
    refine ⟨q + 1, ?_⟩
    cases hf : docs.find? (fun d => d.email == v) with
    | none =>
      simp [checkEmail, getUserByEmail, findOne, takeFault,
        matchesFilter_byEmail, hf, discardErr]
    | some w =>
      have hb : (w.id == oid) = true := beq_iff_eq.mpr (he v w rfl hf)
      simp [checkEmail, getUserByEmail, findOne, takeFault,
        matchesFilter_byEmail, hf, discardErr, hb]

/-- The password block of Update hashes a present in-limit password. -/
theorem hashOpt_ok (rpw : Option String)
    (hp : ∀ p, rpw = some p → p.utf8ByteSize ≤ 72) :
    hashOpt rpw = .ok (rpw.map bcryptHash) := by
  cases rpw with
  | none => rfl
  | some p =>
    have hple : ¬ 72 < p.utf8ByteSize := Nat.not_lt.mpr (hp p rfl)
    simp [hashOpt, generateFromPassword, hple]

/-- Full run of a successful Update on a healthy store: parse succeeds, the
target is first id-match, every present uniqueness check only finds the
target itself, and a present password is within the hash limit.  The call
returns the target with the `$set` document applied, and the store holds
exactly that rewritten first match. -/
theorem updateUser_run (s : DBState) (now : Nat) (id : String) (oid : Nat)
    (u : User) (req : UpdateUserRequest)
    (h1 : s.faults = [])
    (h2 : objectIDFromHex id = some oid)
    (h3 : s.docs.find? (fun d => d.id == oid) = some u)
    (hu : ∀ v w, req.userID = some v →
      s.docs.find? (fun d => d.userID == v) = some w → w.id = oid)
    (he : ∀ v w, req.email = some v →
      s.docs.find? (fun d => d.email == v) = some w → w.id = oid)
    (hp : ∀ p, req.password = some p → p.utf8ByteSize ≤ 72) :
    (updateUser s now id req).1 =
      .ok (applySet ⟨req.userID, req.email, req.password.map bcryptHash, now⟩ u) ∧
    (updateUser s now id req).2.docs =
      setFirst (fun d => d.id == oid)
        (applySet ⟨req.userID, req.email, req.password.map bcryptHash, now⟩)
        s.docs := by
  obtain ⟨docs, noid, flts, q⟩ := s
  dsimp only at h1 h3 hu he hp ⊢
  subst h1
  obtain ⟨ruid, remail, rpw⟩ := req
  dsimp only at hu he hp ⊢
  have hfind : ∀ uf : UpdateFields,
      (setFirst (fun d => d.id == oid) (applySet uf) docs).find?
        (fun d => d.id == oid) = some (applySet uf u) :=
    fun uf => find?_setFirst (fun d => d.id == oid) (applySet uf)
      (fun x hx => hx) docs u h3
  obtain ⟨qa, ha⟩ := checkUID_ok docs noid q oid ruid hu
  obtain ⟨qb, hb⟩ := checkEmail_ok docs noid qa oid remail he
  have hc := hashOpt_ok rpw hp
  simp [updateUser, h2, ha, hb, hc, updateOne, takeFault, getUserByID, findOne,
    matchesFilter_byId, hfind]

/-- C6: on a successful Update each absent optional field keeps its stored
value, `updated_at` is set to the call's current time, and `created_at` and
the identifier never change; in particular the all-absent request succeeds
and rewrites only `updated_at` of the target document, leaving every other
document and field untouched. -/
theorem updateUser_frame (s : DBState) (now : Nat) (id : String) (oid : Nat)
    (u : User) (req : UpdateUserRequest)
    (h1 : s.faults = [])
    (h2 : objectIDFromHex id = some oid)
    (h3 : s.docs.find? (fun d => d.id == oid) = some u)
    (hu : ∀ v w, req.userID = some v →
      s.docs.find? (fun d => d.userID == v) = some w → w.id = oid)
    (he : ∀ v w, req.email = some v →
      s.docs.find? (fun d => d.email == v) = some w → w.id = oid)
    (hp : ∀ p, req.password = some p → p.utf8ByteSize ≤ 72) :
    (updateUser s now id req).1 =
      .ok (applySet ⟨req.userID, req.email, req.password.map bcryptHash, now⟩ u) ∧
    (∀ r, (updateUser s now id req).1 = .ok r →
      r.updatedAt = now ∧ r.createdAt = u.createdAt ∧ r.id = u.id ∧
      (req.userID = none → r.userID = u.userID) ∧
      (req.email = none → r.email = u.email) ∧
      (req.password = none → r.password = u.password)) ∧
    (updateUser s now id ⟨none, none, none⟩).1 =
      .ok { u with updatedAt := now } ∧
    (updateUser s now id ⟨none, none, none⟩).2.docs =
      setFirst (fun d => d.id == oid)
        (fun d => { d with updatedAt := now }) s.docs := by
  have hrun := updateUser_run s now id oid u req h1 h2 h3 hu he hp
  have hrun0 := updateUser_run s now id oid u ⟨none, none, none⟩ h1 h2 h3
    (fun v w hv => nomatch hv) (fun v w hv => nomatch hv)
    (fun p hp' => nomatch hp')
  refine ⟨hrun.1, ?_, hrun0.1, hrun0.2⟩
  intro r hr
  rw [hrun.1, Except.ok.injEq] at hr
  subst hr
  refine ⟨rfl, rfl, rfl, ?_, ?_, ?_⟩
  · intro hn; simp [applySet, hn]
  · intro hn; simp [applySet, hn]
  · intro hn; simp [applySet, hn]

/-- C6 witness: a password-only update of alice keeps her user_id, email
and created_at; the all-absent update rewrites only `updated_at`. -/
theorem updateUser_frame_witness :
    (updateUser ⟨[⟨1, "alice", "a@x.com", "h", 3, 3⟩], 2, [], 0⟩ 9
      "000000000000000000000001" ⟨none, none, some "npw"⟩).1 =
      .ok ⟨1, "alice", "a@x.com", bcryptHash "npw", 3, 9⟩ ∧
    (updateUser ⟨[⟨1, "alice", "a@x.com", "h", 3, 3⟩], 2, [], 0⟩ 9
      "000000000000000000000001" ⟨none, none, none⟩).1 =
      .ok ⟨1, "alice", "a@x.com", "h", 3, 9⟩ ∧
    (updateUser ⟨[⟨1, "alice", "a@x.com", "h", 3, 3⟩], 2, [], 0⟩ 9
      "000000000000000000000001" ⟨none, none, none⟩).2.docs =
      [⟨1, "alice", "a@x.com", "h", 3, 9⟩] := by
  have h := updateUser_frame ⟨[⟨1, "alice", "a@x.com", "h", 3, 3⟩], 2, [], 0⟩ 9
    "000000000000000000000001" 1 ⟨1, "alice", "a@x.com", "h", 3, 3⟩
    ⟨none, none, some "npw"⟩ rfl (by decide) (by decide)
    (fun v w hv => nomatch hv) (fun v w hv => nomatch hv)
    (fun p hq => by injection hq with hq'; subst hq'; decide)
  refine ⟨h.1, h.2.2.1, ?_⟩
  rw [h.2.2.2]
  decide

/-- C7: updating to a `user_id` or `email` whose first owner is a different
record fails with the corresponding conflict and leaves the store
untouched; updating the target to its own current `user_id` or `email`
succeeds (no self-collision), refreshing only `updated_at`. -/
theorem updateUser_conflict_and_self (s : DBState) (now : Nat) (id : String)
    (oid : Nat) (u : User)
    (h1 : s.faults = [])
    (h2 : objectIDFromHex id = some oid)
    (h3 : s.docs.find? (fun d => d.id == oid) = some u) :
    (∀ v w, s.docs.find? (fun d => d.userID == v) = some w → w.id ≠ oid →
      (updateUser s now id ⟨some v, none, none⟩).1 = .error .userIDExists ∧
      (updateUser s now id ⟨some v, none, none⟩).2.docs = s.docs) ∧
    (∀ v w, s.docs.find? (fun d => d.email == v) = some w → w.id ≠ oid →
      (updateUser s now id ⟨none, some v, none⟩).1 = .error .emailExists ∧
      (updateUser s now id ⟨none, some v, none⟩).2.docs = s.docs) ∧
    (s.docs.find? (fun d => d.userID == u.userID) = some u → u.id = oid →
      (updateUser s now id ⟨some u.userID, none, none⟩).1 =
        .ok { u with updatedAt := now }) ∧
    (s.docs.find? (fun d => d.email == u.email) = some u → u.id = oid →
      (updateUser s now id ⟨none, some u.email, none⟩).1 =
        .ok { u with updatedAt := now }) := by
  obtain ⟨docs, noid, flts, q⟩ := s
  dsimp only at h1 h3 ⊢
  subst h1
  refine ⟨?_, ?_, ?_, ?_⟩
  · intro v w hf hne
    have hb : (w.id == oid) = false := beq_eq_false_iff_ne.mpr hne
    simp [updateUser, h2, checkUID, getUserByUserID, findOne, takeFault,
      matchesFilter_byUserID, hf, discardErr, hb]
  · intro v w hf hne
    have hb : (w.id == oid) = false := beq_eq_false_iff_ne.mpr hne
    simp [updateUser, h2, checkUID, checkEmail, getUserByEmail, findOne,
      takeFault, matchesFilter_byEmail, hf, discardErr, hb]
  · intro hs hid
    have hu' : ∀ v w, (some u.userID = some v) →
        docs.find? (fun d => d.userID == v) = some w → w.id = oid := by
      intro v w hv hf
      injection hv with hv'
      subst hv'
      rw [hs] at hf
      injection hf with hf'
      subst hf'
      exact hid
    exact (updateUser_run ⟨docs, noid, [], q⟩ now id oid u
      ⟨some u.userID, none, none⟩ rfl h2 h3 hu'
      (fun v w hv => nomatch hv) (fun p hp' => nomatch hp')).1
  · intro hs hid
    have he' : ∀ v w, (some u.email = some v) →
        docs.find? (fun d => d.email == v) = some w → w.id = oid := by
      intro v w hv hf
      injection hv with hv'
      subst hv'
      rw [hs] at hf
      injection hf with hf'
      subst hf'
      exact hid
    exact (updateUser_run ⟨docs, noid, [], q⟩ now id oid u
      ⟨none, some u.email, none⟩ rfl h2 h3
      (fun v w hv => nomatch hv) he' (fun p hp' => nomatch hp')).1

/-- C7 witness: with alice (id 1) and bob (id 2) stored, pointing alice's
record at bob's user_id or email conflicts and leaves the store unchanged,
while re-asserting her own values succeeds. -/
theorem updateUser_conflict_and_self_witness :
    (updateUser ⟨[⟨1, "alice", "a@x.com", "h", 0, 0⟩,
        ⟨2, "bob", "b@x.com", "h2", 0, 0⟩], 3, [], 0⟩ 9
      "000000000000000000000001" ⟨some "bob", none, none⟩).1 =
      .error .userIDExists ∧
    (updateUser ⟨[⟨1, "alice", "a@x.com", "h", 0, 0⟩,
        ⟨2, "bob", "b@x.com", "h2", 0, 0⟩], 3, [], 0⟩ 9
      "000000000000000000000001" ⟨some "bob", none, none⟩).2.docs =
      [⟨1, "alice", "a@x.com", "h", 0, 0⟩, ⟨2, "bob", "b@x.com", "h2", 0, 0⟩] ∧
    (updateUser ⟨[⟨1, "alice", "a@x.com", "h", 0, 0⟩,
        ⟨2, "bob", "b@x.com", "h2", 0, 0⟩], 3, [], 0⟩ 9
      "000000000000000000000001" ⟨none, some "b@x.com", none⟩).1 =
      .error .emailExists ∧
    (updateUser ⟨[⟨1, "alice", "a@x.com", "h", 0, 0⟩,
        ⟨2, "bob", "b@x.com", "h2", 0, 0⟩], 3, [], 0⟩ 9
      "000000000000000000000001" ⟨some "alice", none, none⟩).1 =
      .ok ⟨1, "alice", "a@x.com", "h", 0, 9⟩ ∧
    (updateUser ⟨[⟨1, "alice", "a@x.com", "h", 0, 0⟩,
        ⟨2, "bob", "b@x.com", "h2", 0, 0⟩], 3, [], 0⟩ 9
      "000000000000000000000001" ⟨none, some "a@x.com", none⟩).1 =
      .ok ⟨1, "alice", "a@x.com", "h", 0, 9⟩ := by
  have h := updateUser_conflict_and_self
    ⟨[⟨1, "alice", "a@x.com", "h", 0, 0⟩, ⟨2, "bob", "b@x.com", "h2", 0, 0⟩],
      3, [], 0⟩ 9 "000000000000000000000001" 1
    ⟨1, "alice", "a@x.com", "h", 0, 0⟩ rfl (by decide) (by decide)
  exact ⟨(h.1 "bob" ⟨2, "bob", "b@x.com", "h2", 0, 0⟩ (by decide) (by decide)).1,
    (h.1 "bob" ⟨2, "bob", "b@x.com", "h2", 0, 0⟩ (by decide) (by decide)).2,
    (h.2.1 "b@x.com" ⟨2, "bob", "b@x.com", "h2", 0, 0⟩ (by decide) (by decide)).1,
    h.2.2.1 (by decide) rfl, h.2.2.2 (by decide) rfl⟩

/-- C8: against a healthy store, a `user_id` or `email` lookup with no
match returns a null result and no error — unlike GetByID, which fails
with the not-found error — and the search handlers turn that null result
into a 404 response. -/
theorem lookups_absent_null_vs_notfound (s : DBState) (uid em id : String)
    (oid : Nat) (h1 : s.faults = []) :
    (s.docs.find? (fun d => d.userID == uid) = none →
      (getUserByUserID s uid).1 = .ok none) ∧
    (s.docs.find? (fun d => d.email == em) = none →
      (getUserByEmail s em).1 = .ok none) ∧
    (objectIDFromHex id = some oid →
      s.docs.find? (fun d => d.id == oid) = none →
      (getUserByID s id).1 = .error .userNotFound) ∧
    (uid ≠ "" → s.docs.find? (fun d => d.userID == uid) = none →
      (getUserByUserIDHandler s uid).1 = ⟨404, Body.jsonError "User not found"⟩) ∧
    (em ≠ "" → s.docs.find? (fun d => d.email == em) = none →
      (getUserByEmailHandler s em).1 = ⟨404, Body.jsonError "User not found"⟩) := by
  refine ⟨?_, ?_, ?_, ?_, ?_⟩
  · intro hf
    simp [getUserByUserID, findOne, takeFault, h1, matchesFilter_byUserID, hf]
  · intro hf
    simp [getUserByEmail, findOne, takeFault, h1, matchesFilter_byEmail, hf]
  · intro hsome hf
    simp [getUserByID, hsome, findOne, takeFault, h1, matchesFilter_byId, hf]
  · intro hne hf
    have hb : (uid == "") = false := beq_eq_false_iff_ne.mpr hne
    simp [getUserByUserIDHandler, hb, getUserByUserID, findOne, takeFault, h1,
      matchesFilter_byUserID, hf]
  · intro hne hf
    have hb : (em == "") = false := beq_eq_false_iff_ne.mpr hne
    simp [getUserByEmailHandler, hb, getUserByEmail, findOne, takeFault, h1,
      matchesFilter_byEmail, hf]

/-- C8 witness: a store holding only alice, probed for the absent bob by
natural key, email, and a well-formed absent ObjectID. -/
theorem lookups_absent_null_vs_notfound_witness :
    (getUserByUserID ⟨[⟨1, "alice", "a@x.com", "h", 0, 0⟩], 2, [], 0⟩
      "bob").1 = .ok none ∧
    (getUserByEmail ⟨[⟨1, "alice", "a@x.com", "h", 0, 0⟩], 2, [], 0⟩
      "b@x.com").1 = .ok none ∧
    (getUserByID ⟨[⟨1, "alice", "a@x.com", "h", 0, 0⟩], 2, [], 0⟩
      "000000000000000000000002").1 = .error .userNotFound ∧
    (getUserByUserIDHandler ⟨[⟨1, "alice", "a@x.com", "h", 0, 0⟩], 2, [], 0⟩
      "bob").1 = ⟨404, Body.jsonError "User not found"⟩ ∧
    (getUserByEmailHandler ⟨[⟨1, "alice", "a@x.com", "h", 0, 0⟩], 2, [], 0⟩
      "b@x.com").1 = ⟨404, Body.jsonError "User not found"⟩ := by
  have h := lookups_absent_null_vs_notfound
    ⟨[⟨1, "alice", "a@x.com", "h", 0, 0⟩], 2, [], 0⟩ "bob" "b@x.com"
    "000000000000000000000002" 2 rfl
  exact ⟨h.1 (by decide), h.2.1 (by decide), h.2.2.1 (by decide) (by decide),
    h.2.2.2.1 (by decide) (by decide), h.2.2.2.2 (by decide) (by decide)⟩

end UserApp
